import Mathlib

/-!
Verification development for a Steam game-statistics tracker (`main.py`).

The program polls three HTTP endpoints per tracked game identifier and
appends one observation row per game per run to a PostgreSQL store.

Shallow embedding conventions:
* JSON values are modelled by the inductive `Json` (numbers as `Int`;
  the program only ever handles integer-valued JSON numbers).
* A fetch (`requests.get` followed by `.json()`) is modelled by a value of
  type `Except String Json`: `.error` covers network errors and malformed
  JSON bodies, `.ok` carries the parsed body.
* Python subscripting `d[k]`, `d.get(k, default)`, `k in d`, truthiness,
  and the comparison `x > 0` are modelled by `pyIndex`, `pyGet`,
  `pyContains`, `Json.truthy` and `pyGtZero`, each raising (returning
  `.error`) exactly where Python raises.
* The PostgreSQL store is modelled by `DBState` (two tables plus
  creation flags); SQL statements by `Stmt`/`execStmt`; transient
  connection failures are injected through a fault oracle; a commit
  publishes the connection-local working state as the new durable state.
-/

set_option autoImplicit false

namespace SteamTracker

/-- JSON values; numbers are modelled as integers (the program only
consumes integer-valued fields). -/
inductive Json where
  | null : Json
  | bool : Bool → Json
  | num : Int → Json
  | str : String → Json
  | arr : List Json → Json
  | obj : List (String × Json) → Json
deriving Repr

/-- First-match association-list lookup, the model of Python dict lookup
(a parsed JSON object has unique keys, so first-match is exact). -/
def lookupField (fields : List (String × Json)) (k : String) : Option Json :=
  (fields.find? (fun p => p.1 == k)).map (fun p => p.2)

/-- Python `d[k]` for a string key: returns the value, raises `KeyError`
when the key is absent, `TypeError` when `d` is not a dict. -/
def pyIndex (j : Json) (k : String) : Except String Json :=
  match j with
  | .obj fields =>
    match lookupField fields k with
    | some v => .ok v
    | none => .error "KeyError"
  | _ => .error "TypeError"

/-- Python `d.get(k, default)`: only dicts have `.get`; anything else
raises `AttributeError`. -/
def pyGet (j : Json) (k : String) (default : Json) : Except String Json :=
  match j with
  | .obj fields => .ok ((lookupField fields k).getD default)
  | _ => .error "AttributeError"

/-- Substring test used to model Python `needle in s` on strings. -/
def strContains (s pat : String) : Bool :=
  pat == "" || (s.splitOn pat).length ≥ 2

/-- Python `k in d` for a string `k`: key test on dicts, element test on
lists, substring test on strings, `TypeError` otherwise. -/
def pyContains (j : Json) (k : String) : Except String Bool :=
  match j with
  | .obj fields => .ok (lookupField fields k).isSome
  | .arr elems => .ok (elems.any (fun e => match e with | .str s => s == k | _ => false))
  | .str s => .ok (strContains s k)
  | _ => .error "TypeError"

/-- Python truthiness of a JSON value (`if app_data['success']:`). -/
def Json.truthy : Json → Bool
  | .null => false
  | .bool b => b
  | .num n => n != 0
  | .str s => s != ""
  | .arr elems => !elems.isEmpty
  | .obj fields => !fields.isEmpty

/-- Python `x > 0`: defined on numbers and booleans (`True == 1`),
`TypeError` otherwise. -/
def pyGtZero : Json → Except String Bool
  | .num n => .ok (decide (0 < n))
  | .bool b => .ok b
  | _ => .error "TypeError"

/-- Whether a JSON value is a non-negative integer. -/
def jsonIsNonNegInt : Json → Bool
  | .num n => decide (0 ≤ n)
  | _ => false

/-! ## Player-count collector (`get_current_player_count`, main.py:80-88) -/

/-- The body of the `try` block of `get_current_player_count`:
`data = response.json(); return data['response'].get('player_count', 0)`. -/
def pcSteps (fetch : Except String Json) : Except String Json :=
  match fetch with
  | .error e => .error e
  | .ok data =>
    match pyIndex data "response" with
    | .error e => .error e
    | .ok resp => pyGet resp "player_count" (.num 0)

/-- Model of `get_current_player_count`: the `try` body, with every exception
caught and replaced by `0`. -/
def get_current_player_count (fetch : Except String Json) : Json :=
  match pcSteps fetch with
  | .ok v => v
  | .error _ => .num 0

/-! ## Sale-info collector (`get_sale_info`, main.py:94-123) -/

/-- The record built by `get_sale_info`; raw JSON values are copied
verbatim from the price block (`original_price`/`final_price` are
`Json.null` in the default record, modelling Python `None`). -/
structure SaleInfo where
  on_sale : Bool
  discount_percent : Json
  original_price : Json
  final_price : Json
deriving Repr

/-- The neutral default record returned by `get_sale_info` when the
lookup fails, the price block is absent, or an exception occurs. -/
def defaultSaleInfo : SaleInfo :=
  ⟨false, .num 0, .null, .null⟩

/-- The body of the `try` block of `get_sale_info`, following the source
line by line: index by `str(appid)`, test `app_data['success']`
truthiness, fetch `app_data['data']`, test `'price_overview' in details`,
then build the record (`on_sale` from `price['discount_percent'] > 0`,
the other three fields copied).  `.ok none` is the fall-through to the
in-`try` default return (success falsy or price block absent); `.error`
is an exception reaching the `except` handler. -/
def saleSteps (fetch : Except String Json) (appid : Int) : Except String (Option SaleInfo) :=
  match fetch with
  | .error e => .error e
  | .ok data =>
    match pyIndex data (toString appid) with
    | .error e => .error e
    | .ok app_data =>
      match pyIndex app_data "success" with
      | .error e => .error e
      | .ok success =>
        if success.truthy then
          match pyIndex app_data "data" with
          | .error e => .error e
          | .ok details =>
            match pyContains details "price_overview" with
            | .error e => .error e
            | .ok hasPrice =>
              if hasPrice then
                match pyIndex details "price_overview" with
                | .error e => .error e
                | .ok price =>
                  match pyIndex price "discount_percent" with
                  | .error e => .error e
                  | .ok dp =>
                    match pyGtZero dp with
                    | .error e => .error e
                    | .ok onSale =>
                      match pyIndex price "initial" with
                      | .error e => .error e
                      | .ok ip =>
                        match pyIndex price "final" with
                        | .error e => .error e
                        | .ok fp => .ok (some ⟨onSale, dp, ip, fp⟩)
              else .ok none
        else .ok none

/-- Model of `get_sale_info`: the `try` body, with the in-`try` default return and
the `except` handler both producing `defaultSaleInfo`. -/
def get_sale_info (fetch : Except String Json) (appid : Int) : SaleInfo :=
  match saleSteps fetch appid with
  | .ok (some info) => info
  | .ok none => defaultSaleInfo
  | .error _ => defaultSaleInfo

/-! ## Ownership collector (`get_estimated_owners`, main.py:129-137) -/

/-- The body of the `try` block of `get_estimated_owners`:
`data = response.json(); return data.get('owners', "unknown")`. -/
def ownersSteps (fetch : Except String Json) : Except String Json :=
  match fetch with
  | .error e => .error e
  | .ok data => pyGet data "owners" (.str "unknown")

/-- Model of `get_estimated_owners`: the `try` body, with every exception caught
and replaced by the literal string `"unknown"`. -/
def get_estimated_owners (fetch : Except String Json) : Json :=
  match ownersSteps fetch with
  | .ok v => v
  | .error _ => .str "unknown"

/-! ## Store model (PostgreSQL, main.py:40-74 and 143-166) -/

/-- A row of the `games` table: `id INTEGER PRIMARY KEY, name TEXT NOT NULL`. -/
structure Game where
  id : Int
  name : String
deriving Repr, DecidableEq

/-- A row of the `player_counts` table (the serial primary key is the
position in the list).  Values inserted by `log_player_data` are passed
through verbatim, so the JSON-typed fields stay `Json` here. -/
structure Observation where
  game_id : Int
  timestamp : Int
  player_count : Json
  on_sale : Bool
  discount_percent : Json
  original_price : Json
  final_price : Json
  estimated_owners : Json
deriving Repr

/-- Durable (or connection-local working) database state: the two tables
and whether each has been created. -/
structure DBState where
  gamesCreated : Bool
  pcCreated : Bool
  games : List Game
  player_counts : List Observation
deriving Repr

/-- Store-tier errors: injected connection faults, missing tables,
foreign-key violations. -/
inductive DBErr where
  | connectionLost : DBErr
  | undefinedTable : DBErr
  | foreignKeyViolation : DBErr
deriving Repr, DecidableEq

/-- The SQL statements the program issues. -/
inductive Stmt where
  | createGames : Stmt
  | createPlayerCounts : Stmt
  | insertGame (id : Int) (name : String) : Stmt
  | insertObservation (o : Observation) : Stmt
deriving Repr

/-- Semantics of one statement on a working state.
`CREATE TABLE IF NOT EXISTS` is idempotent; `player_counts` references
`games(id)`, so creating it requires `games` and inserting into it
enforces the foreign key; `INSERT ... ON CONFLICT (id) DO NOTHING` keeps
the existing row when the id is already present. -/
def execStmt : Stmt → DBState → Except DBErr DBState
  | .createGames, s => .ok ⟨true, s.pcCreated, s.games, s.player_counts⟩
  | .createPlayerCounts, s =>
    if s.gamesCreated then .ok ⟨s.gamesCreated, true, s.games, s.player_counts⟩
    else .error .undefinedTable
  | .insertGame i n, s =>
    if s.gamesCreated then
      if s.games.any (fun g => g.id == i) then .ok s
      else .ok ⟨s.gamesCreated, s.pcCreated, s.games ++ [⟨i, n⟩], s.player_counts⟩
    else .error .undefinedTable
  | .insertObservation o, s =>
    if s.pcCreated then
      if s.games.any (fun g => g.id == o.game_id) then
        .ok ⟨s.gamesCreated, s.pcCreated, s.games, s.player_counts ++ [o]⟩
      else .error .foreignKeyViolation
    else .error .undefinedTable

/-- Run a list of statements on one connection, threading the working
state.  `faults` is an oracle of injected transient failures, one flag
per statement (`true` = the `cur.execute` call raises, e.g. the
connection dropped); a missing flag means no injected fault.  The first
error aborts the rest, exactly as an uncaught Python exception does. -/
def runStmts (faults : List Bool) : List Stmt → DBState → Except DBErr DBState
  | [], s => .ok s
  | st :: rest, s =>
    if faults.headD false then .error .connectionLost
    else
      match execStmt st s with
      | .error e => .error e
      | .ok s' => runStmts faults.tail rest s'

/-- The configured identifier-to-name mapping (`APPIDS`, main.py:10-17). -/
def APPIDS : List (Int × String) :=
  [(730, "Counter-Strike 2"), (570, "Dota 2"), (440, "Team Fortress 2"),
   (578080, "PUBG"), (1172470, "Apex Legends"), (2767030, "Marvel Rivals")]

/-- Model of `init_db` (main.py:40-74): on one connection, create the two tables,
insert-or-ignore one `games` row per configured identifier, then commit
once and close.  The result pairs the durable state after the call with
the propagated error, if any: an error means the function raised before
`conn.commit()`, so the durable state is unchanged; on success the
commit publishes the working state. -/
def init_db (faults : List Bool) (appids : List (Int × String)) (durable : DBState) :
    DBState × Option DBErr :=
  match runStmts faults
      (Stmt.createGames :: Stmt.createPlayerCounts ::
        appids.map (fun p => Stmt.insertGame p.1 p.2)) durable with
  | .ok working => (working, none)
  | .error e => (durable, some e)

/-- The ambient environment of one run: what each HTTP endpoint returns
for each identifier, the wall clock at the moment an identifier is
logged, and the injected store fault (if any) for that identifier's
`log_player_data` connection. -/
structure Env where
  pcFetch : Int → Except String Json
  saleFetch : Int → Except String Json
  ownersFetch : Int → Except String Json
  timestamp : Int → Int
  dbFault : Int → Option DBErr

/-- Model of `log_player_data` (main.py:143-166): open a connection (which may
fault), insert one observation row, commit, close.  `.ok` carries the new
durable state; `.error` means the exception propagated before commit and
the durable state is unchanged. -/
def log_player_data (env : Env) (appid : Int) (player_count : Json)
    (sale : SaleInfo) (owners : Json) (durable : DBState) : Except DBErr DBState :=
  match env.dbFault appid with
  | some e => .error e
  | none =>
    execStmt (.insertObservation
      ⟨appid, env.timestamp appid, player_count, sale.on_sale, sale.discount_percent,
        sale.original_price, sale.final_price, owners⟩) durable

/-- Model of `track_games` (main.py:172-185): for each identifier in mapping
order, call the three collectors then `log_player_data`.  Collector
failures are absorbed inside the collectors; a store-tier error from
`log_player_data` propagates uncaught, aborting the loop with the
durable state as it stood. -/
def track_games (env : Env) (appid_map : List (Int × String)) (durable : DBState) :
    DBState × Option DBErr :=
  match appid_map with
  | [] => (durable, none)
  | (appid, _) :: rest =>
    let count := get_current_player_count (env.pcFetch appid)
    let sale := get_sale_info (env.saleFetch appid) appid
    let owners := get_estimated_owners (env.ownersFetch appid)
    match log_player_data env appid count sale owners durable with
    | .error e => (durable, some e)
    | .ok durable' => track_games env rest durable'

/-! ## Helper lemmas about the collectors -/

/-- Case analysis for `get_current_player_count`: the result is either the
default `0` or the verbatim `player_count` field of the response. -/
theorem get_current_player_count_cases (fetch : Except String Json) :
    get_current_player_count fetch = .num 0 ∨
    ∃ top resp v, fetch = .ok (.obj top) ∧
      lookupField top "response" = some (.obj resp) ∧
      lookupField resp "player_count" = some v ∧
      get_current_player_count fetch = v := by
  cases fetch with
  | error e => exact Or.inl rfl
  | ok data =>
    cases data with
    | obj top =>
      cases hr : lookupField top "response" with
      | none => exact Or.inl (by simp [get_current_player_count, pcSteps, pyIndex, hr])
      | some resp =>
        cases resp with
        | obj rfields =>
          cases hv : lookupField rfields "player_count" with
          | none =>
            exact Or.inl (by simp [get_current_player_count, pcSteps, pyIndex, pyGet, hr, hv])
          | some v =>
            exact Or.inr ⟨top, rfields, v, rfl, hr, hv,
              by simp [get_current_player_count, pcSteps, pyIndex, pyGet, hr, hv]⟩
        | null => exact Or.inl (by simp [get_current_player_count, pcSteps, pyIndex, pyGet, hr])
        | bool b => exact Or.inl (by simp [get_current_player_count, pcSteps, pyIndex, pyGet, hr])
        | num n => exact Or.inl (by simp [get_current_player_count, pcSteps, pyIndex, pyGet, hr])
        | str s => exact Or.inl (by simp [get_current_player_count, pcSteps, pyIndex, pyGet, hr])
        | arr l => exact Or.inl (by simp [get_current_player_count, pcSteps, pyIndex, pyGet, hr])
    | null => exact Or.inl rfl
    | bool b => exact Or.inl rfl
    | num n => exact Or.inl rfl
    | str s => exact Or.inl rfl
    | arr l => exact Or.inl rfl

/-- Any successfully built sale record has its `on_sale` flag equal to the
result of the Python comparison `discount_percent > 0`. -/
theorem saleSteps_some_on_sale {fetch : Except String Json} {appid : Int} {r : SaleInfo}
    (h : saleSteps fetch appid = .ok (some r)) :
    pyGtZero r.discount_percent = .ok r.on_sale := by
  unfold saleSteps at h
  repeat' split at h
  all_goals first
    | (injection h with h; injection h with h; subst h; simp_all)
    | simp_all

/-! ## Claim theorems: collectors -/

/-- Claim C1: for every identifier, `get_current_player_count` returns the
`player_count` field of the response on success, returns `0` when that
field is absent from the response object, and on any exception (network
error, malformed JSON, missing key — any error produced by the `try`
body `pcSteps`) returns `0` without propagating the exception. -/
theorem get_current_player_count_spec (fetch : Except String Json) :
    (∀ top resp v, fetch = .ok (.obj top) →
      lookupField top "response" = some (.obj resp) →
      lookupField resp "player_count" = some v →
      get_current_player_count fetch = v) ∧
    (∀ top resp, fetch = .ok (.obj top) →
      lookupField top "response" = some (.obj resp) →
      lookupField resp "player_count" = none →
      get_current_player_count fetch = .num 0) ∧
    (∀ e, pcSteps fetch = .error e → get_current_player_count fetch = .num 0) := by
  refine ⟨?_, ?_, ?_⟩
  · intro top resp v hf hr hv
    subst hf
    simp [get_current_player_count, pcSteps, pyIndex, pyGet, hr, hv]
  · intro top resp hf hr hv
    subst hf
    simp [get_current_player_count, pcSteps, pyIndex, pyGet, hr, hv]
  · intro e he
    simp [get_current_player_count, he]

/-- Witness for C1 on the spec's test vectors. -/
theorem get_current_player_count_spec_witness :
    get_current_player_count
        (.ok (.obj [("response", .obj [("player_count", .num 1234)])])) = .num 1234 ∧
    get_current_player_count (.ok (.obj [("response", .obj [])])) = .num 0 ∧
    get_current_player_count (.error "network error") = .num 0 :=
  ⟨(get_current_player_count_spec _).1 _ _ _ rfl rfl rfl,
   (get_current_player_count_spec _).2.1 _ _ rfl rfl rfl,
   (get_current_player_count_spec _).2.2 _ rfl⟩

/-- Claim C2: when the details response has the nested `success` flag true
and a `price_overview` block present, `get_sale_info` returns a record
with `on_sale` equal to `discount_percent > 0` and the three price fields
copied verbatim from the block. -/
theorem get_sale_info_success_spec (fetch : Except String Json) (appid d : Int)
    (top app det price : List (String × Json)) (ip fp : Json)
    (hf : fetch = .ok (.obj top))
    (happ : lookupField top (toString appid) = some (.obj app))
    (hsucc : lookupField app "success" = some (.bool true))
    (hdata : lookupField app "data" = some (.obj det))
    (hprice : lookupField det "price_overview" = some (.obj price))
    (hdp : lookupField price "discount_percent" = some (.num d))
    (hip : lookupField price "initial" = some ip)
    (hfp : lookupField price "final" = some fp) :
    get_sale_info fetch appid = ⟨decide (0 < d), .num d, ip, fp⟩ := by
  subst hf
  simp [get_sale_info, saleSteps, pyIndex, pyContains, pyGtZero, Json.truthy,
    happ, hsucc, hdata, hprice, hdp, hip, hfp]

/-- Witness for C2 on the spec's test vector (50% discount, 1999 → 999). -/
theorem get_sale_info_success_spec_witness :
    get_sale_info
      (.ok (.obj [("730", .obj [("success", .bool true),
        ("data", .obj [("price_overview", .obj [("discount_percent", .num 50),
          ("initial", .num 1999), ("final", .num 999)])])])])) 730 =
      ⟨true, .num 50, .num 1999, .num 999⟩ := by
  exact get_sale_info_success_spec _ 730 50 _ _ _ _ _ _ rfl rfl rfl rfl rfl rfl rfl rfl

/-- Claim C3: whenever the details response has `success` false or the
price block absent (the `try` body falls through: `saleSteps` yields
`.ok none`) or any exception occurs during the fetch or parse
(`saleSteps` yields `.error`), `get_sale_info` returns exactly the
neutral default record and does not propagate the exception. -/
theorem get_sale_info_default_spec (fetch : Except String Json) (appid : Int)
    (h : (∃ e, fetch = .error e) ∨ saleSteps fetch appid = .ok none ∨
      ∃ e, saleSteps fetch appid = .error e) :
    get_sale_info fetch appid = defaultSaleInfo := by
  rcases h with ⟨e, he⟩ | hnone | ⟨e, herr⟩
  · subst he
    rfl
  · simp [get_sale_info, hnone]
  · simp [get_sale_info, herr]

/-- Witness for C3: a `success: false` response, and a network error. -/
theorem get_sale_info_default_spec_witness :
    get_sale_info (.ok (.obj [("730", .obj [("success", .bool false)])])) 730 =
      defaultSaleInfo ∧
    get_sale_info (.error "connection reset") 730 = defaultSaleInfo :=
  ⟨get_sale_info_default_spec _ 730 (Or.inr (Or.inl rfl)),
   get_sale_info_default_spec _ 730 (Or.inl ⟨_, rfl⟩)⟩

/-- Claim C4: `get_estimated_owners` returns the `owners` field of the
JSON response when present, and the literal string `"unknown"` when the
field is absent or on any exception, without propagating the exception. -/
theorem get_estimated_owners_spec (fetch : Except String Json) :
    (∀ fields v, fetch = .ok (.obj fields) →
      lookupField fields "owners" = some v →
      get_estimated_owners fetch = v) ∧
    (∀ fields, fetch = .ok (.obj fields) →
      lookupField fields "owners" = none →
      get_estimated_owners fetch = .str "unknown") ∧
    (∀ e, ownersSteps fetch = .error e → get_estimated_owners fetch = .str "unknown") := by
  refine ⟨?_, ?_, ?_⟩
  · intro fields v hf hv
    subst hf
    simp [get_estimated_owners, ownersSteps, pyGet, hv]
  · intro fields hf hv
    subst hf
    simp [get_estimated_owners, ownersSteps, pyGet, hv]
  · intro e he
    simp [get_estimated_owners, he]

/-- Witness for C4 on the spec's test vectors. -/
theorem get_estimated_owners_spec_witness :
    get_estimated_owners (.ok (.obj [("owners", .str "1,000,000 .. 2,000,000")])) =
      .str "1,000,000 .. 2,000,000" ∧
    get_estimated_owners (.ok (.obj [("name", .str "Dota 2")])) = .str "unknown" ∧
    get_estimated_owners (.error "timeout") = .str "unknown" :=
  ⟨(get_estimated_owners_spec _).1 _ _ rfl rfl,
   (get_estimated_owners_spec _).2.1 _ rfl rfl,
   (get_estimated_owners_spec _).2.2 _ rfl⟩

/-- Claim C9: every record `get_sale_info` returns, on any input and any
path, satisfies the invariant that `on_sale` is exactly the result of the
program's comparison `discount_percent > 0`. -/
theorem get_sale_info_on_sale_invariant (fetch : Except String Json) (appid : Int) :
    pyGtZero (get_sale_info fetch appid).discount_percent =
      .ok (get_sale_info fetch appid).on_sale := by
  cases hs : saleSteps fetch appid with
  | error e => simp [get_sale_info, hs, defaultSaleInfo, pyGtZero]
  | ok o =>
    cases o with
    | none => simp [get_sale_info, hs, defaultSaleInfo, pyGtZero]
    | some r =>
      have hinv := saleSteps_some_on_sale hs
      simp [get_sale_info, hs, hinv]

/-! ## Helper lemmas about the store model -/

/-- A successful statement never removes a `games` row. -/
theorem execStmt_ok_games_mono {st : Stmt} {s s' : DBState}
    (h : execStmt st s = .ok s') : ∀ g ∈ s.games, g ∈ s'.games := by
  intro g hg
  cases st with
  | createGames =>
    simp only [execStmt] at h
    injection h with h
    subst h
    exact hg
  | createPlayerCounts =>
    simp only [execStmt] at h
    split at h
    · injection h with h
      subst h
      exact hg
    · simp at h
  | insertGame i n =>
    simp only [execStmt] at h
    split at h
    · split at h
      · injection h with h
        subst h
        exact hg
      · injection h with h
        subst h
        exact List.mem_append_left _ hg
    · simp at h
  | insertObservation o =>
    simp only [execStmt] at h
    split at h
    · split at h
      · injection h with h
        subst h
        exact hg
      · simp at h
    · simp at h

/-- A successful statement never unsets a table-created flag. -/
theorem execStmt_ok_flags_mono {st : Stmt} {s s' : DBState}
    (h : execStmt st s = .ok s') :
    (s.gamesCreated = true → s'.gamesCreated = true) ∧
    (s.pcCreated = true → s'.pcCreated = true) := by
  cases st with
  | createGames =>
    simp only [execStmt] at h
    injection h with h
    subst h
    exact ⟨fun _ => rfl, fun hp => hp⟩
  | createPlayerCounts =>
    simp only [execStmt] at h
    split at h
    · injection h with h
      subst h
      exact ⟨fun hgc => hgc, fun _ => rfl⟩
    · simp at h
  | insertGame i n =>
    simp only [execStmt] at h
    split at h
    · split at h <;> (injection h with h; subst h; exact ⟨fun hgc => hgc, fun hp => hp⟩)
    · simp at h
  | insertObservation o =>
    simp only [execStmt] at h
    split at h
    · split at h
      · injection h with h
        subst h
        exact ⟨fun hgc => hgc, fun hp => hp⟩
      · simp at h
    · simp at h

/-- A successful statement run never removes a `games` row. -/
theorem runStmts_ok_games_mono {stmts : List Stmt} : ∀ {fs : List Bool} {s s' : DBState},
    runStmts fs stmts s = .ok s' → ∀ g ∈ s.games, g ∈ s'.games := by
  induction stmts with
  | nil =>
    intro fs s s' h g hg
    simp only [runStmts] at h
    injection h with h
    subst h
    exact hg
  | cons st rest ih =>
    intro fs s s' h g hg
    simp only [runStmts] at h
    split at h
    · simp at h
    · split at h
      · simp at h
      · next s1 heq => exact ih h g (execStmt_ok_games_mono heq g hg)

/-- A successful statement run never unsets a table-created flag. -/
theorem runStmts_ok_flags_mono {stmts : List Stmt} : ∀ {fs : List Bool} {s s' : DBState},
    runStmts fs stmts s = .ok s' →
    (s.gamesCreated = true → s'.gamesCreated = true) ∧
    (s.pcCreated = true → s'.pcCreated = true) := by
  induction stmts with
  | nil =>
    intro fs s s' h
    simp only [runStmts] at h
    injection h with h
    subst h
    exact ⟨fun hgc => hgc, fun hp => hp⟩
  | cons st rest ih =>
    intro fs s s' h
    simp only [runStmts] at h
    split at h
    · simp at h
    · split at h
      · simp at h
      · next s1 heq =>
        obtain ⟨hg1, hp1⟩ := execStmt_ok_flags_mono heq
        obtain ⟨hg2, hp2⟩ := ih h
        exact ⟨fun hgc => hg2 (hg1 hgc), fun hp => hp2 (hp1 hp)⟩

/-- Game-id membership is monotone along a successful statement run. -/
theorem runStmts_ok_gameIds_mono {fs : List Bool} {stmts : List Stmt} {s s' : DBState}
    (h : runStmts fs stmts s = .ok s') :
    ∀ i ∈ s.games.map Game.id, i ∈ s'.games.map Game.id := by
  intro i hi
  rcases List.mem_map.mp hi with ⟨g, hg, rfl⟩
  exact List.mem_map.mpr ⟨g, runStmts_ok_games_mono h g hg, rfl⟩

/-- A successful `insertGame i n` leaves a row with id `i` present. -/
theorem execStmt_insertGame_mem {i : Int} {n : String} {s s1 : DBState}
    (h : execStmt (.insertGame i n) s = .ok s1) :
    i ∈ s1.games.map Game.id := by
  simp only [execStmt] at h
  split at h
  · split at h
    · next hany =>
      injection h with h
      subst h
      rcases List.any_eq_true.mp hany with ⟨g, hg, hgi⟩
      exact List.mem_map.mpr ⟨g, hg, by simpa using hgi⟩
    · injection h with h
      subst h
      simp
  · simp at h

/-- After a successful run of the per-identifier insert statements, every
identifier in the list has a `games` row. -/
theorem runStmts_inserts_mem {l : List (Int × String)} : ∀ {fs : List Bool} {s s' : DBState},
    runStmts fs (l.map (fun p => Stmt.insertGame p.1 p.2)) s = .ok s' →
    ∀ p ∈ l, p.1 ∈ s'.games.map Game.id := by
  induction l with
  | nil => simp
  | cons q rest ih =>
    intro fs s s' h p hp
    simp only [List.map_cons, runStmts] at h
    split at h
    · simp at h
    · split at h
      · simp at h
      · next s1 heq =>
        rcases List.mem_cons.mp hp with rfl | hp'
        · exact runStmts_ok_gameIds_mono h p.1 (execStmt_insertGame_mem heq)
        · exact ih h p hp'

/-- When the `games` table exists, `insertGame` always succeeds, keeps
the existing rows (appending at most one fresh-id row), and afterwards
the inserted id is present. -/
theorem execStmt_insertGame_step (i : Int) (n : String) (s : DBState)
    (hgc : s.gamesCreated = true) :
    ∃ s1, execStmt (.insertGame i n) s = .ok s1 ∧
      s1.gamesCreated = true ∧ s1.pcCreated = s.pcCreated ∧
      s1.player_counts = s.player_counts ∧
      ((s.games.map Game.id).Nodup → (s1.games.map Game.id).Nodup) ∧
      (∀ j, j ∈ s.games.map Game.id → j ∈ s1.games.map Game.id) ∧
      i ∈ s1.games.map Game.id ∧
      (∀ j, j ∈ s.games.map Game.id →
        s1.games.filter (fun g => g.id == j) = s.games.filter (fun g => g.id == j)) := by
  by_cases hin : (s.games.any fun g => g.id == i) = true
  · refine ⟨s, ?_, hgc, rfl, rfl, fun hn => hn, fun j hj => hj, ?_, fun j _ => rfl⟩
    · simp only [execStmt, hgc, hin]
      simp
    · rcases List.any_eq_true.mp hin with ⟨g, hg, hgi⟩
      exact List.mem_map.mpr ⟨g, hg, by simpa using hgi⟩
  · have hni : i ∉ s.games.map Game.id := by
      intro hmem
      rcases List.mem_map.mp hmem with ⟨g, hg, hgi⟩
      exact hin (List.any_eq_true.mpr ⟨g, hg, by simp [hgi]⟩)
    refine ⟨⟨true, s.pcCreated, s.games ++ [⟨i, n⟩], s.player_counts⟩, ?_, rfl, rfl, rfl,
      ?_, ?_, ?_, ?_⟩
    · simp only [execStmt, hgc, hin]
      simp
    · intro hn
      simp [List.nodup_append, hn, hni]
    · intro j hj
      simp [hj]
    · simp
    · intro j hj
      have hij : (i == j) = false := by
        rw [beq_eq_false_iff_ne]
        intro hEq
        exact hni (hEq ▸ hj)
      simp [List.filter_append, hij]

/-- Running the per-identifier insert statements with no injected faults
always succeeds: the inserts are keyed insert-or-ignore, so they preserve
existing rows and row-id uniqueness, leave observations untouched, and
afterwards every identifier of the list has a row. -/
theorem runStmts_inserts_nofault (l : List (Int × String)) : ∀ (s : DBState),
    s.gamesCreated = true →
    ∃ s', runStmts [] (l.map (fun p => Stmt.insertGame p.1 p.2)) s = .ok s' ∧
      s'.gamesCreated = true ∧ s'.pcCreated = s.pcCreated ∧
      s'.player_counts = s.player_counts ∧
      ((s.games.map Game.id).Nodup → (s'.games.map Game.id).Nodup) ∧
      (∀ j, j ∈ s.games.map Game.id → j ∈ s'.games.map Game.id) ∧
      (∀ p ∈ l, p.1 ∈ s'.games.map Game.id) ∧
      (∀ j, j ∈ s.games.map Game.id →
        s'.games.filter (fun g => g.id == j) = s.games.filter (fun g => g.id == j)) := by
  induction l with
  | nil =>
    intro s hgc
    exact ⟨s, rfl, hgc, rfl, rfl, fun hn => hn, fun j hj => hj, by simp, fun j _ => rfl⟩
  | cons q rest ih =>
    intro s hgc
    obtain ⟨s1, hex, h1gc, h1pc, h1obs, h1nd, h1mono, h1mem, h1filt⟩ :=
      execStmt_insertGame_step q.1 q.2 s hgc
    obtain ⟨s', hrun, hgc', hpc', hobs', hnd', hmono', hmem', hfilt'⟩ := ih s1 h1gc
    refine ⟨s', ?_, hgc', by rw [hpc', h1pc], by rw [hobs', h1obs],
      fun hn => hnd' (h1nd hn), fun j hj => hmono' j (h1mono j hj), ?_,
      fun j hj => by rw [hfilt' j (h1mono j hj), h1filt j hj]⟩
    · simp only [List.map_cons, runStmts, List.headD_nil, if_neg Bool.false_ne_true, hex,
        List.tail_nil]
      exact hrun
    · intro p hp
      rcases List.mem_cons.mp hp with rfl | hp'
      · exact hmono' p.1 h1mem
      · exact hmem' p hp'

/-- In a list of games with pairwise-distinct ids, an id that occurs at
all occurs in exactly one row. -/
theorem games_filter_length_one {l : List Game} {a : Int}
    (hn : (l.map Game.id).Nodup) (ha : a ∈ l.map Game.id) :
    (l.filter (fun g => g.id == a)).length = 1 := by
  induction l with
  | nil => simp at ha
  | cons g t ih =>
    simp only [List.map_cons, List.nodup_cons] at hn
    obtain ⟨hgt, hnt⟩ := hn
    by_cases hga : g.id = a
    · subst hga
      have htnil : t.filter (fun x => x.id == g.id) = [] := by
        rw [List.filter_eq_nil_iff]
        intro x hx hbeq
        exact hgt (List.mem_map.mpr ⟨x, hx, by simpa using hbeq⟩)
      simp [List.filter_cons, htnil]
    · have ha' : a ∈ t.map Game.id := by
        simp only [List.map_cons, List.mem_cons] at ha
        rcases ha with h | h
        · exact absurd h.symm hga
        · exact h
      have hbeq : (g.id == a) = false := by simpa using hga
      simp [List.filter_cons, hbeq, ih hnt ha']

/-- Running `init_db` with no injected faults succeeds, and its committed state
creates the tables, preserves existing rows and row-id uniqueness, leaves
observations untouched, and covers every configured identifier. -/
theorem init_db_nofault (appids : List (Int × String)) (d : DBState) :
    ∃ s', init_db [] appids d = (s', none) ∧
      s'.gamesCreated = true ∧ s'.pcCreated = true ∧
      s'.player_counts = d.player_counts ∧
      ((d.games.map Game.id).Nodup → (s'.games.map Game.id).Nodup) ∧
      (∀ j, j ∈ d.games.map Game.id → j ∈ s'.games.map Game.id) ∧
      (∀ p ∈ appids, p.1 ∈ s'.games.map Game.id) ∧
      (∀ j, j ∈ d.games.map Game.id →
        s'.games.filter (fun g => g.id == j) = d.games.filter (fun g => g.id == j)) := by
  obtain ⟨s', hrun, hgc', hpc', hobs', hnd', hmono', hmem', hfilt'⟩ :=
    runStmts_inserts_nofault appids ⟨true, true, d.games, d.player_counts⟩ rfl
  refine ⟨s', ?_, hgc', hpc' ▸ rfl, hobs' ▸ rfl, hnd', hmono', hmem', hfilt'⟩
  unfold init_db
  simp [runStmts, execStmt, hrun]

/-- A successful `log_player_data` call appends exactly one observation
row, built verbatim from its arguments, and touches nothing else. -/
theorem log_player_data_ok_shape {env : Env} {appid : Int} {pc : Json} {sale : SaleInfo}
    {owners : Json} {d d' : DBState}
    (h : log_player_data env appid pc sale owners d = .ok d') :
    d' = ⟨d.gamesCreated, d.pcCreated, d.games,
      d.player_counts ++ [⟨appid, env.timestamp appid, pc, sale.on_sale,
        sale.discount_percent, sale.original_price, sale.final_price, owners⟩]⟩ := by
  unfold log_player_data at h
  split at h
  · simp at h
  · simp only [execStmt] at h
    split at h
    · split at h
      · injection h with h
        exact h.symm
      · simp at h
    · simp at h

/-! ## Claim theorems: store initializer, recorder, run loop -/

/-- Claim C5: running `init_db` twice in succession is idempotent: both
runs succeed, and after the second run, as after the first, the `games`
table holds exactly one row per configured identifier.  The `Nodup`
hypothesis is the `id INTEGER PRIMARY KEY` invariant of the starting
state. -/
theorem init_db_idempotent (appids : List (Int × String)) (d : DBState)
    (hn : (d.games.map Game.id).Nodup) :
    (init_db [] appids d).2 = none ∧
    (init_db [] appids (init_db [] appids d).1).2 = none ∧
    ∀ p ∈ appids,
      ((init_db [] appids d).1.games.filter (fun g => g.id == p.1)).length = 1 ∧
      ((init_db [] appids (init_db [] appids d).1).1.games.filter
        (fun g => g.id == p.1)).length = 1 := by
  obtain ⟨s1, h1, _, _, _, h1nd, _, h1mem, _⟩ := init_db_nofault appids d
  obtain ⟨s2, h2, _, _, _, h2nd, _, h2mem, _⟩ := init_db_nofault appids s1
  have e1 : (init_db [] appids d).1 = s1 := by rw [h1]
  have e2 : (init_db [] appids d).2 = none := by rw [h1]
  have e3 : (init_db [] appids s1).1 = s2 := by rw [h2]
  have e4 : (init_db [] appids s1).2 = none := by rw [h2]
  rw [e1]
  refine ⟨e2, e4, ?_⟩
  intro p hp
  rw [e3]
  exact ⟨games_filter_length_one (h1nd hn) (h1mem p hp),
    games_filter_length_one (h2nd (h1nd hn)) (h2mem p hp)⟩

/-- Witness for C5: starting from an empty store and the configured
mapping, both runs succeed and each identifier ends with one row. -/
theorem init_db_idempotent_witness :
    (init_db [] APPIDS ⟨false, false, [], []⟩).2 = none ∧
    (init_db [] APPIDS (init_db [] APPIDS ⟨false, false, [], []⟩).1).2 = none ∧
    (((init_db [] APPIDS ⟨false, false, [], []⟩).1.games.filter
        (fun g => g.id == 730)).length = 1 ∧
      ((init_db [] APPIDS (init_db [] APPIDS ⟨false, false, [], []⟩).1).1.games.filter
        (fun g => g.id == 730)).length = 1) := by
  have h := init_db_idempotent APPIDS ⟨false, false, [], []⟩ (by simp)
  exact ⟨h.1, h.2.1, h.2.2 (730, "Counter-Strike 2") (by simp [APPIDS])⟩

/-- Claim C7: for an identifier that already has a `games` row, running
`init_db` again with a different display name configured for it leaves
the stored row unchanged (insert-or-ignore keyed on id): the new name is
not applied. -/
theorem init_db_keeps_existing_name (appids : List (Int × String)) (d : DBState)
    (a : Int) (oldName newName : String)
    (hn : (d.games.map Game.id).Nodup)
    (hold : Game.mk a oldName ∈ d.games)
    (_hconf : (a, newName) ∈ appids) :
    (init_db [] appids d).1.games.filter (fun g => g.id == a) =
      d.games.filter (fun g => g.id == a) ∧
    (newName ≠ oldName → Game.mk a newName ∉ (init_db [] appids d).1.games) := by
  obtain ⟨s1, h1, _, _, _, _, _, _, hfilt⟩ := init_db_nofault appids d
  have e1 : (init_db [] appids d).1 = s1 := by rw [h1]
  have hmem : a ∈ d.games.map Game.id := List.mem_map.mpr ⟨_, hold, rfl⟩
  rw [e1]
  refine ⟨hfilt a hmem, ?_⟩
  intro hne hc
  have h2 : Game.mk a newName ∈ s1.games.filter (fun g => g.id == a) :=
    List.mem_filter.mpr ⟨hc, by simp⟩
  rw [hfilt a hmem] at h2
  have h3 : Game.mk a oldName ∈ d.games.filter (fun g => g.id == a) :=
    List.mem_filter.mpr ⟨hold, by simp⟩
  rcases List.length_eq_one.mp (games_filter_length_one hn hmem) with ⟨x, hx⟩
  rw [hx] at h2 h3
  simp only [List.mem_singleton] at h2 h3
  have hEq : Game.mk a newName = Game.mk a oldName := h2.trans h3.symm
  injection hEq with _ hname
  exact hne hname

/-- Witness for C7: a stored row named "Counter-Strike 2" survives a
rerun configured with the name "CS2 Renamed". -/
theorem init_db_keeps_existing_name_witness :
    (init_db [] [((730 : Int), "CS2 Renamed")]
        ⟨true, true, [⟨730, "Counter-Strike 2"⟩], []⟩).1.games.filter
      (fun g => g.id == 730) =
      (⟨true, true, [⟨730, "Counter-Strike 2"⟩], []⟩ : DBState).games.filter
        (fun g => g.id == 730) ∧
    Game.mk 730 "CS2 Renamed" ∉
      (init_db [] [((730 : Int), "CS2 Renamed")]
        ⟨true, true, [⟨730, "Counter-Strike 2"⟩], []⟩).1.games := by
  have h := init_db_keeps_existing_name [((730 : Int), "CS2 Renamed")]
    ⟨true, true, [⟨730, "Counter-Strike 2"⟩], []⟩ 730 "Counter-Strike 2" "CS2 Renamed"
    (by simp) (by simp) (by simp)
  exact ⟨h.1, h.2 (by decide)⟩

/-- Claim C10: `init_db` commits exactly once, at the end: if any
statement raises (so the call returns an error), the durable state is
exactly the input state — no partial set of game rows became durable;
if the call succeeds, the single commit published a state in which both
tables exist and every configured identifier has a row. -/
theorem init_db_commit_once (faults : List Bool) (appids : List (Int × String))
    (d : DBState) :
    ((init_db faults appids d).2.isSome = true → (init_db faults appids d).1 = d) ∧
    ((init_db faults appids d).2 = none →
      (init_db faults appids d).1.gamesCreated = true ∧
      (init_db faults appids d).1.pcCreated = true ∧
      ∀ p ∈ appids, p.1 ∈ (init_db faults appids d).1.games.map Game.id) := by
  unfold init_db
  cases hr : runStmts faults
      (Stmt.createGames :: Stmt.createPlayerCounts ::
        appids.map (fun p => Stmt.insertGame p.1 p.2)) d with
  | error e => simp
  | ok w =>
    have hr2 : runStmts faults.tail.tail
        (appids.map (fun p => Stmt.insertGame p.1 p.2))
        ⟨true, true, d.games, d.player_counts⟩ = .ok w := by
      simp only [runStmts, execStmt] at hr
      split at hr
      · simp at hr
      · split at hr
        · simp at hr
        · exact hr
    constructor
    · intro hs
      simp at hs
    · intro _
      refine ⟨(runStmts_ok_flags_mono hr2).1 rfl, (runStmts_ok_flags_mono hr2).2 rfl, ?_⟩
      exact runStmts_inserts_mem hr2

/-- Witness for C10: an injected fault on the second statement aborts the
run with the durable state untouched; the fault-free run commits all six
configured rows. -/
theorem init_db_commit_once_witness :
    ((init_db [false, true] APPIDS ⟨false, false, [], []⟩).2.isSome = true →
      (init_db [false, true] APPIDS ⟨false, false, [], []⟩).1 = ⟨false, false, [], []⟩) ∧
    ((init_db [] APPIDS ⟨false, false, [], []⟩).2 = none →
      (init_db [] APPIDS ⟨false, false, [], []⟩).1.gamesCreated = true ∧
      (init_db [] APPIDS ⟨false, false, [], []⟩).1.pcCreated = true ∧
      ∀ p ∈ APPIDS, p.1 ∈ (init_db [] APPIDS ⟨false, false, [], []⟩).1.games.map Game.id) :=
  ⟨(init_db_commit_once [false, true] APPIDS ⟨false, false, [], []⟩).1,
   (init_db_commit_once [] APPIDS ⟨false, false, [], []⟩).2⟩

/-- Claim C6: if `log_player_data` fails with a store-tier error while
`track_games` is processing one identifier, the exception propagates
(the run returns that error) and the durable state is exactly as it was
before that identifier — the remaining identifiers contribute nothing;
if `log_player_data` succeeds, the loop continues with the rest, whatever
the three collector fetches returned (collector-tier failures are
absorbed inside the collectors and never abort the loop). -/
theorem track_games_abort_spec (env : Env) (appid : Int) (name : String)
    (rest : List (Int × String)) (d : DBState) :
    (∀ e, log_player_data env appid (get_current_player_count (env.pcFetch appid))
        (get_sale_info (env.saleFetch appid) appid)
        (get_estimated_owners (env.ownersFetch appid)) d = .error e →
      track_games env ((appid, name) :: rest) d = (d, some e)) ∧
    (∀ d', log_player_data env appid (get_current_player_count (env.pcFetch appid))
        (get_sale_info (env.saleFetch appid) appid)
        (get_estimated_owners (env.ownersFetch appid)) d = .ok d' →
      track_games env ((appid, name) :: rest) d = track_games env rest d') := by
  constructor <;> intro x h <;> simp only [track_games] <;> rw [h]

/-- Witness for C6: with every HTTP endpoint down, a connection fault on
id 730 aborts the two-identifier run at once with the store untouched,
while the fault-free id 570 is logged (with all-default collector values)
and the loop moves on. -/
theorem track_games_abort_spec_witness :
    track_games
        ⟨fun _ => .error "net down", fun _ => .error "net down", fun _ => .error "net down",
          fun _ => 1700000000, fun a => if a == 730 then some .connectionLost else none⟩
        [(730, "Counter-Strike 2"), (570, "Dota 2")]
        ⟨true, true, [⟨570, "Dota 2"⟩], []⟩ =
      (⟨true, true, [⟨570, "Dota 2"⟩], []⟩, some .connectionLost) ∧
    track_games
        ⟨fun _ => .error "net down", fun _ => .error "net down", fun _ => .error "net down",
          fun _ => 1700000000, fun a => if a == 730 then some .connectionLost else none⟩
        [(570, "Dota 2")] ⟨true, true, [⟨570, "Dota 2"⟩], []⟩ =
      track_games
        ⟨fun _ => .error "net down", fun _ => .error "net down", fun _ => .error "net down",
          fun _ => 1700000000, fun a => if a == 730 then some .connectionLost else none⟩
        []
        ⟨true, true, [⟨570, "Dota 2"⟩],
          [⟨570, 1700000000, .num 0, false, .num 0, .null, .null, .str "unknown"⟩]⟩ :=
  ⟨(track_games_abort_spec _ 730 "Counter-Strike 2" [(570, "Dota 2")] _).1
      .connectionLost rfl,
   (track_games_abort_spec _ 570 "Dota 2" [] _).2 _ rfl⟩

/-- Counterexample to C8 as stated: a response whose `player_count` field
is the negative integer `-5` makes `get_current_player_count` return
`-5`, which is not a non-negative integer, and `log_player_data` records
that negative value verbatim in the observation row. -/
theorem recorded_player_count_nonneg_counterexample :
    get_current_player_count
        (.ok (.obj [("response", .obj [("player_count", .num (-5))])])) = .num (-5) ∧
    jsonIsNonNegInt (get_current_player_count
        (.ok (.obj [("response", .obj [("player_count", .num (-5))])]))) = false ∧
    log_player_data
        ⟨fun _ => .ok .null, fun _ => .ok .null, fun _ => .ok .null,
          fun _ => 1700000000, fun _ => none⟩ 730
        (get_current_player_count
          (.ok (.obj [("response", .obj [("player_count", .num (-5))])])))
        defaultSaleInfo (.str "unknown")
        ⟨true, true, [⟨730, "Counter-Strike 2"⟩], []⟩ =
      .ok ⟨true, true, [⟨730, "Counter-Strike 2"⟩],
        [⟨730, 1700000000, .num (-5), false, .num 0, .null, .null, .str "unknown"⟩]⟩ :=
  ⟨rfl, rfl, rfl⟩

/-- Claim C8 as amended: the recorded player count is `0` (hence
non-negative) on fetch failure or a missing field, and otherwise is the
response's `player_count` field copied verbatim — so whenever that field,
when present, is a non-negative integer, the value
`get_current_player_count` returns and `log_player_data` records is a
non-negative integer.  (Unamended the claim is false: a negative response
field is returned and recorded as-is, see the counterexample.) -/
theorem recorded_player_count_nonneg (fetch : Except String Json) (env : Env)
    (appid : Int) (sale : SaleInfo) (owners : Json) (d d' : DBState)
    (hresp : ∀ top resp v, fetch = .ok (.obj top) →
      lookupField top "response" = some (.obj resp) →
      lookupField resp "player_count" = some v → jsonIsNonNegInt v = true)
    (hlog : log_player_data env appid (get_current_player_count fetch)
      sale owners d = .ok d') :
    jsonIsNonNegInt (get_current_player_count fetch) = true ∧
    d'.player_counts = d.player_counts ++
      [⟨appid, env.timestamp appid, get_current_player_count fetch, sale.on_sale,
        sale.discount_percent, sale.original_price, sale.final_price, owners⟩] := by
  constructor
  · rcases get_current_player_count_cases fetch with h0 | ⟨top, resp, v, hf, hr, hv, hres⟩
    · rw [h0]
      rfl
    · rw [hres]
      exact hresp top resp v hf hr hv
  · rw [log_player_data_ok_shape hlog]

/-- Witness for amended C8: a response with `player_count` 1234 is
returned non-negative and recorded as the only new observation row. -/
theorem recorded_player_count_nonneg_witness :
    jsonIsNonNegInt (get_current_player_count
      (.ok (.obj [("response", .obj [("player_count", .num 1234)])]))) = true ∧
    (⟨true, true, [⟨730, "Counter-Strike 2"⟩],
        [⟨730, 1700000000,
          get_current_player_count
            (.ok (.obj [("response", .obj [("player_count", .num 1234)])])),
          defaultSaleInfo.on_sale, defaultSaleInfo.discount_percent,
          defaultSaleInfo.original_price, defaultSaleInfo.final_price,
          .str "unknown"⟩]⟩ : DBState).player_counts =
      (⟨true, true, [⟨730, "Counter-Strike 2"⟩], []⟩ : DBState).player_counts ++
        [⟨730, 1700000000,
          get_current_player_count
            (.ok (.obj [("response", .obj [("player_count", .num 1234)])])),
          defaultSaleInfo.on_sale, defaultSaleInfo.discount_percent,
          defaultSaleInfo.original_price, defaultSaleInfo.final_price,
          .str "unknown"⟩] := by
  refine recorded_player_count_nonneg
    (.ok (.obj [("response", .obj [("player_count", .num 1234)])]))
    ⟨fun _ => .ok .null, fun _ => .ok .null, fun _ => .ok .null,
      fun _ => 1700000000, fun _ => none⟩
    730 defaultSaleInfo (.str "unknown")
    ⟨true, true, [⟨730, "Counter-Strike 2"⟩], []⟩ _ ?_ rfl
  intro top resp v h1 h2 h3
  injection h1 with h1
  injection h1 with h1
  subst h1
  simp only [lookupField, List.find?] at h2 h3
  simp at h2
  subst h2
  simp at h3
  subst h3
  rfl

end SteamTracker
